import Mathlib

/-!
A shallow embedding of the `manually-static` crate in its instrumented
(`debug_assertions`) configuration, covering `src/lib.rs`, `src/ptr.rs`
and `src/stack_and_ref.rs`.

Modelling choices:

* A `ManuallyStatic<T>` cell together with every `ManuallyStaticRef` /
  `ManuallyStaticRefMut` derived from it shares one `Arc<AtomicBool>`
  liveness flag and one value slot (the references hold raw pointers into
  the cell's value).  That whole family is collapsed into one explicit
  state record `ManuallyStatic` holding the value and the shared
  `was_dropped` flag; the references carry no further data of their own,
  so an operation on a reference is a function on this shared state.

* Likewise a family of cloned `ManuallyStaticPtr<T>` handles shares one
  heap block, one `Arc<AtomicBool>` freed flag and one `Arc<AtomicUsize>`
  reference counter, collapsed into the record `ManuallyStaticPtr`.

* A Rust `panic!`/failed `assert!` is modelled as `Except.error msg` with
  the exact panic message of the source; a normal return is `Except.ok`.

* Sequential usage of a handle family is modelled by lists of operations
  (`COp`, `PtrOp`) folded over the shared state (`runCell`, `runPtr`).
-/

/-- Boolean test that the character list `pat` is a prefix of the second list. -/
def subAt : List Char → List Char → Bool
  | [], _ => true
  | _ :: _, [] => false
  | p :: ps, h :: hs => p == h && subAt ps hs

/-- Boolean test that the character list `pat` occurs contiguously in the second list. -/
def hasSub (pat : List Char) : List Char → Bool
  | [] => subAt pat []
  | c :: hs => subAt pat (c :: hs) || hasSub pat hs

/-- Boolean test that `pat` occurs as a contiguous substring of `hay`. -/
def strHasSub (hay pat : String) : Bool :=
  hasSub pat.data hay.data

/-- Shared state of a `ManuallyStatic<T>` cell and all references derived from
it (`src/lib.rs`, struct `ManuallyStatic`): the owned value and the shared
`Arc<AtomicBool>` flag `was_dropped`. -/
structure ManuallyStatic (T : Type) where
  value : T
  was_dropped : Bool

/-- `ManuallyStatic::new` (`src/lib.rs` lines 49-55): stores the value and
initializes the shared flag to `false`. -/
def ManuallyStatic.new {T : Type} (value : T) : ManuallyStatic T :=
  { value := value, was_dropped := false }

/-- `ManuallyStatic::get_ref` (`src/lib.rs` lines 60-66): returns a
`ManuallyStaticRef` holding a raw pointer to the value and a clone of the
shared flag.  In the collapsed-state model the returned reference is exactly
access to the shared state, so `get_ref` is the identity on that state; it is
a total function with no failure mode. -/
def ManuallyStatic.get_ref {T : Type} (w : ManuallyStatic T) : ManuallyStatic T :=
  w

/-- `ManuallyStatic::get_mut` (`src/lib.rs` lines 71-77): same as `get_ref`
but for the mutable reference type; total, no failure mode. -/
def ManuallyStatic.get_mut {T : Type} (w : ManuallyStatic T) : ManuallyStatic T :=
  w

/-- `impl Drop for ManuallyStatic` (`src/lib.rs` lines 82-87): stores `true`
into the shared `was_dropped` flag (Release ordering). -/
def ManuallyStatic.drop {T : Type} (w : ManuallyStatic T) : ManuallyStatic T :=
  { w with was_dropped := true }

/-- The panic message of `ManuallyStaticRef::deref` (`src/lib.rs` line 106). -/
def msRefDroppedMsg : String :=
  "ManuallyStaticRef: Attempted to dereference value after ManuallyStatic was dropped!"

/-- `<ManuallyStaticRef as Deref>::deref` (`src/lib.rs` lines 98-112): in
debug builds, loads the shared flag (Acquire) and panics if it is set;
otherwise returns the value behind the raw pointer. -/
def ManuallyStaticRef.deref {T : Type} (w : ManuallyStatic T) : Except String T :=
  if w.was_dropped then Except.error msRefDroppedMsg
  else Except.ok w.value

/-- The panic message of `ManuallyStaticRefMut::deref` / `deref_mut`
(`src/lib.rs` lines 131 and 145). -/
def msRefMutDroppedMsg : String :=
  "ManuallyStaticRefMut: Attempted to dereference value after ManuallyStatic was dropped!"

/-- `<ManuallyStaticRefMut as Deref>::deref` (`src/lib.rs` lines 123-137):
checks the shared flag, then reads through the raw pointer. -/
def ManuallyStaticRefMut.deref {T : Type} (w : ManuallyStatic T) : Except String T :=
  if w.was_dropped then Except.error msRefMutDroppedMsg
  else Except.ok w.value

/-- An assignment `*r = x` through `<ManuallyStaticRefMut as DerefMut>::deref_mut`
(`src/lib.rs` lines 139-151): the check of the shared flag performed by
`deref_mut`, followed by the write through the returned `&mut T`. -/
def ManuallyStaticRefMut.write {T : Type} (w : ManuallyStatic T) (x : T) :
    Except String (ManuallyStatic T) :=
  if w.was_dropped then Except.error msRefMutDroppedMsg
  else Except.ok { w with value := x }

namespace StackAndRef

/-- The panic message of the historical variant
`ManuallyStaticRef::deref` in `src/stack_and_ref.rs` (line 109). -/
def refDroppedMsg : String :=
  "Attempted to dereference ManuallyStaticRef after ManuallyStatic was dropped!"

/-- `<ManuallyStaticRef as Deref>::deref` of `src/stack_and_ref.rs`
(lines 101-115): same check as the `src/lib.rs` variant, different message. -/
def derefRef {T : Type} (w : ManuallyStatic T) : Except String T :=
  if w.was_dropped then Except.error refDroppedMsg
  else Except.ok w.value

end StackAndRef

/-- One operation performed on a `ManuallyStatic` cell or on a reference
derived from it. -/
inductive COp (T : Type) where
  | get_ref
  | get_mut
  | derefRef
  | derefMut
  | write (x : T)
  | drop

/-- Whether a cell operation is the destruction of the owning cell. -/
def isDropOp {T : Type} : COp T → Bool
  | COp.drop => true
  | _ => false

/-- Small-step semantics of one cell-family operation on the shared state. -/
def stepCell {T : Type} (w : ManuallyStatic T) : COp T → Except String (ManuallyStatic T)
  | COp.get_ref => Except.ok (ManuallyStatic.get_ref w)
  | COp.get_mut => Except.ok (ManuallyStatic.get_mut w)
  | COp.derefRef =>
    match ManuallyStaticRef.deref w with
    | Except.error e => Except.error e
    | Except.ok _ => Except.ok w
  | COp.derefMut =>
    match ManuallyStaticRefMut.deref w with
    | Except.error e => Except.error e
    | Except.ok _ => Except.ok w
  | COp.write x => ManuallyStaticRefMut.write w x
  | COp.drop => Except.ok (ManuallyStatic.drop w)

/-- Runs a sequence of cell-family operations, stopping at the first panic. -/
def runCell {T : Type} (w : ManuallyStatic T) : List (COp T) → Except String (ManuallyStatic T)
  | [] => Except.ok w
  | op :: rest =>
    match stepCell w op with
    | Except.error e => Except.error e
    | Except.ok w' => runCell w' rest

/-- Shared state of a family of cloned `ManuallyStaticPtr<T>` handles to one
heap block (`src/ptr.rs`, struct `ManuallyStaticPtr`): the block's contents,
the shared `Arc<AtomicBool>` flag `is_freed` and the shared `Arc<AtomicUsize>`
counter `ref_count`. -/
structure ManuallyStaticPtr (T : Type) where
  value : T
  is_freed : Bool
  ref_count : Nat

/-- `ManuallyStaticPtr::new` (`src/ptr.rs` lines 75-83): moves the value to
the heap, `is_freed := false`, `ref_count := 1`. -/
def ManuallyStaticPtr.new {T : Type} (value : T) : ManuallyStaticPtr T :=
  { value := value, is_freed := false, ref_count := 1 }

/-- The panic message of `impl Drop for ManuallyStaticPtr` (`src/ptr.rs` line 171). -/
def lastDropMsg : String :=
  "Attempted to drop the last ManuallyStaticPtr instance before it was freed!"

/-- `impl Drop for ManuallyStaticPtr` (`src/ptr.rs` lines 163-175): the
destructor of one handle.  `prev := ref_count.fetch_sub(1)` reads the counter
and decrements it; when `prev == 1` (this handle was the last) it asserts
that `is_freed` is already set, panicking otherwise.  The decrement happens
on every path, and the flag read by the assert is unchanged by the
decrement, so the pre-state flag is checked against the pre-state count. -/
def ManuallyStaticPtr.drop {T : Type} (s : ManuallyStaticPtr T) :
    Except String (ManuallyStaticPtr T) :=
  if s.ref_count == 1 then
    if s.is_freed then Except.ok { s with ref_count := s.ref_count - 1 }
    else Except.error lastDropMsg
  else Except.ok { s with ref_count := s.ref_count - 1 }

/-- The panic message of `ManuallyStaticPtr::free` (`src/ptr.rs` line 119). -/
def doubleFreeMsg : String :=
  "Attempted to double free ManuallyStaticPtr!"

/-- `ManuallyStaticPtr::free` (`src/ptr.rs` lines 114-124): performs
`is_freed.swap(true, AcqRel)` and panics if the previous value was `true`
(double free); otherwise drops the boxed block, and then — because `free`
takes `self` by value — the consumed handle's own destructor
(`ManuallyStaticPtr.drop`) runs on the updated state. -/
def ManuallyStaticPtr.free {T : Type} (s : ManuallyStaticPtr T) :
    Except String (ManuallyStaticPtr T) :=
  if s.is_freed then Except.error doubleFreeMsg
  else ManuallyStaticPtr.drop { s with is_freed := true }

/-- The panic message of `<ManuallyStaticPtr as Deref>::deref`
(`src/ptr.rs` line 135). -/
def derefFreedMsg : String :=
  "ManuallyStaticPtr: Attempted to dereference a freed pointer!"

/-- `<ManuallyStaticPtr as Deref>::deref` (`src/ptr.rs` lines 127-141):
loads the shared `is_freed` flag (Acquire) and panics if it is set;
otherwise returns a view of the block's contents. -/
def ManuallyStaticPtr.deref {T : Type} (s : ManuallyStaticPtr T) : Except String T :=
  if s.is_freed then Except.error derefFreedMsg
  else Except.ok s.value

/-- `impl Clone for ManuallyStaticPtr` (`src/ptr.rs` lines 143-158):
`ref_count.fetch_add(1, AcqRel)` and a copy of the block address and of the
two shared `Arc`s — the payload is never copied, so the clone's view is the
same shared state with the counter incremented. -/
def ManuallyStaticPtr.clone {T : Type} (s : ManuallyStaticPtr T) : ManuallyStaticPtr T :=
  { s with ref_count := s.ref_count + 1 }

/-- One operation performed on some live handle of a `ManuallyStaticPtr`
family: cloning it, destroying it, consuming it by `free`, or dereferencing it. -/
inductive PtrOp where
  | clone
  | drop
  | free
  | deref

/-- Whether a handle-family operation is a `free` call. -/
def isFreeOp : PtrOp → Bool
  | PtrOp.free => true
  | _ => false

/-- Small-step semantics of one handle-family operation on the shared state. -/
def stepPtr {T : Type} (s : ManuallyStaticPtr T) : PtrOp → Except String (ManuallyStaticPtr T)
  | PtrOp.clone => Except.ok (ManuallyStaticPtr.clone s)
  | PtrOp.drop => ManuallyStaticPtr.drop s
  | PtrOp.free => ManuallyStaticPtr.free s
  | PtrOp.deref =>
    match ManuallyStaticPtr.deref s with
    | Except.error e => Except.error e
    | Except.ok _ => Except.ok s

/-- Runs a sequence of handle-family operations, stopping at the first panic. -/
def runPtr {T : Type} (s : ManuallyStaticPtr T) : List PtrOp → Except String (ManuallyStaticPtr T)
  | [] => Except.ok s
  | op :: rest =>
    match stepPtr s op with
    | Except.error e => Except.error e
    | Except.ok s' => runPtr s' rest

/-- Ghost accounting of the number of live handles after one operation:
`new` creates the first handle, each `clone` creates one, each destructor
run destroys one, and `free` consumes (hence destroys) the handle it is
called on; `deref` does not change the handle population. -/
def liveAfterOp (L : Nat) : PtrOp → Nat
  | PtrOp.clone => L + 1
  | PtrOp.drop => L - 1
  | PtrOp.free => L - 1
  | PtrOp.deref => L

/-- The number of live handles after a sequence of operations, starting from
`L` live handles. -/
def liveCount (L : Nat) : List PtrOp → Nat
  | [] => L
  | op :: rest => liveCount (liveAfterOp L op) rest

/-- The canonical usage trace with `n` transient clones: clone and destroy a
handle `n` times, then `free` the sole remaining handle. -/
def cdFree : Nat → List PtrOp
  | 0 => [PtrOp.free]
  | n + 1 => PtrOp.clone :: PtrOp.drop :: cdFree n

/-- Helper: along any non-panicking run, the shared `is_freed` flag of a
handle family ends up set exactly when it started set or some `free`
operation occurred in the trace. -/
theorem runPtr_is_freed {T : Type} {s s' : ManuallyStaticPtr T} {ops : List PtrOp}
    (h : runPtr s ops = Except.ok s') :
    s'.is_freed = (s.is_freed || List.any ops isFreeOp) := by
  induction ops generalizing s with
  | nil =>
    simp only [runPtr, Except.ok.injEq] at h
    subst h
    simp
  | cons op rest ih =>
    cases op with
    | clone =>
      simp only [runPtr, stepPtr] at h
      have hrec := ih h
      simpa [ManuallyStaticPtr.clone, isFreeOp] using hrec
    | drop =>
      cases hc : (s.ref_count == 1) with
      | true =>
        cases hf : s.is_freed with
        | true =>
          simp only [runPtr, stepPtr, ManuallyStaticPtr.drop, hc, hf, if_true] at h
          have hrec := ih h
          simpa [isFreeOp, hf] using hrec
        | false =>
          simp [runPtr, stepPtr, ManuallyStaticPtr.drop, hc, hf] at h
      | false =>
        simp only [runPtr, stepPtr, ManuallyStaticPtr.drop, hc, Bool.false_eq_true,
          if_false] at h
        have hrec := ih h
        simpa [isFreeOp] using hrec
    | free =>
      cases hf : s.is_freed with
      | true =>
        simp [runPtr, stepPtr, ManuallyStaticPtr.free, hf] at h
      | false =>
        have hstep : stepPtr s PtrOp.free =
            Except.ok { s with is_freed := true, ref_count := s.ref_count - 1 } := by
          cases hc : (s.ref_count == 1) <;>
            simp [stepPtr, ManuallyStaticPtr.free, ManuallyStaticPtr.drop, hf, hc]
        rw [runPtr, hstep] at h
        have hrec := ih h
        simpa [isFreeOp] using hrec
    | deref =>
      cases hf : s.is_freed with
      | true =>
        simp [runPtr, stepPtr, ManuallyStaticPtr.deref, hf] at h
      | false =>
        simp only [runPtr, stepPtr, ManuallyStaticPtr.deref, hf, Bool.false_eq_true,
          if_false] at h
        have hrec := ih h
        simpa [isFreeOp, hf] using hrec

/-- Helper: along any non-panicking run, the shared `ref_count` of a handle
family ends up equal to the ghost live-handle count computed from the trace. -/
theorem runPtr_ref_count {T : Type} {s s' : ManuallyStaticPtr T} {ops : List PtrOp}
    (h : runPtr s ops = Except.ok s') :
    s'.ref_count = liveCount s.ref_count ops := by
  induction ops generalizing s with
  | nil =>
    simp only [runPtr, Except.ok.injEq] at h
    subst h
    simp [liveCount]
  | cons op rest ih =>
    cases op with
    | clone =>
      simp only [runPtr, stepPtr] at h
      have hrec := ih h
      simpa [ManuallyStaticPtr.clone, liveCount, liveAfterOp] using hrec
    | drop =>
      cases hc : (s.ref_count == 1) with
      | true =>
        cases hf : s.is_freed with
        | true =>
          simp only [runPtr, stepPtr, ManuallyStaticPtr.drop, hc, hf, if_true] at h
          have hrec := ih h
          simpa [liveCount, liveAfterOp] using hrec
        | false =>
          simp [runPtr, stepPtr, ManuallyStaticPtr.drop, hc, hf] at h
      | false =>
        simp only [runPtr, stepPtr, ManuallyStaticPtr.drop, hc, Bool.false_eq_true,
          if_false] at h
        have hrec := ih h
        simpa [liveCount, liveAfterOp] using hrec
    | free =>
      cases hf : s.is_freed with
      | true =>
        simp [runPtr, stepPtr, ManuallyStaticPtr.free, hf] at h
      | false =>
        have hstep : stepPtr s PtrOp.free =
            Except.ok { s with is_freed := true, ref_count := s.ref_count - 1 } := by
          cases hc : (s.ref_count == 1) <;>
            simp [stepPtr, ManuallyStaticPtr.free, ManuallyStaticPtr.drop, hf, hc]
        rw [runPtr, hstep] at h
        have hrec := ih h
        simpa [liveCount, liveAfterOp] using hrec
    | deref =>
      cases hf : s.is_freed with
      | true =>
        simp [runPtr, stepPtr, ManuallyStaticPtr.deref, hf] at h
      | false =>
        simp only [runPtr, stepPtr, ManuallyStaticPtr.deref, hf, Bool.false_eq_true,
          if_false] at h
        have hrec := ih h
        simpa [liveCount, liveAfterOp] using hrec

/-- Helper: along any non-panicking run on a cell family, the shared
`was_dropped` flag ends up set exactly when it started set or the cell's
destructor occurred in the trace. -/
theorem runCell_was_dropped {T : Type} {w w' : ManuallyStatic T} {ops : List (COp T)}
    (h : runCell w ops = Except.ok w') :
    w'.was_dropped = (w.was_dropped || List.any ops isDropOp) := by
  induction ops generalizing w with
  | nil =>
    simp only [runCell, Except.ok.injEq] at h
    subst h
    simp
  | cons op rest ih =>
    cases op with
    | get_ref =>
      simp only [runCell, stepCell] at h
      have hrec := ih h
      simpa [ManuallyStatic.get_ref, isDropOp] using hrec
    | get_mut =>
      simp only [runCell, stepCell] at h
      have hrec := ih h
      simpa [ManuallyStatic.get_mut, isDropOp] using hrec
    | derefRef =>
      cases hd : w.was_dropped with
      | true =>
        simp [runCell, stepCell, ManuallyStaticRef.deref, hd] at h
      | false =>
        simp only [runCell, stepCell, ManuallyStaticRef.deref, hd, Bool.false_eq_true,
          if_false] at h
        have hrec := ih h
        simpa [isDropOp, hd] using hrec
    | derefMut =>
      cases hd : w.was_dropped with
      | true =>
        simp [runCell, stepCell, ManuallyStaticRefMut.deref, hd] at h
      | false =>
        simp only [runCell, stepCell, ManuallyStaticRefMut.deref, hd, Bool.false_eq_true,
          if_false] at h
        have hrec := ih h
        simpa [isDropOp, hd] using hrec
    | write x =>
      cases hd : w.was_dropped with
      | true =>
        simp [runCell, stepCell, ManuallyStaticRefMut.write, hd] at h
      | false =>
        simp only [runCell, stepCell, ManuallyStaticRefMut.write, hd, Bool.false_eq_true,
          if_false] at h
        have hrec := ih h
        simpa [isDropOp, hd] using hrec
    | drop =>
      simp only [runCell, stepCell] at h
      have hrec := ih h
      simpa [ManuallyStatic.drop, isDropOp] using hrec

/-- Claim C1: in instrumented builds, a `ManuallyStaticRef` obtained via
`get_ref` before the cell's destruction, when dereferenced after the cell was
dropped, panics with a use-after-free message that names the reference type
(`ManuallyStaticRef`) and contains the word "dropped" — for both the
`src/lib.rs` implementation and the `src/stack_and_ref.rs` variant. -/
theorem C1_deref_after_drop (T : Type) (v : T) :
    ManuallyStaticRef.deref
        (ManuallyStatic.drop (ManuallyStatic.get_ref (ManuallyStatic.new v))) =
      Except.error msRefDroppedMsg ∧
    strHasSub msRefDroppedMsg "ManuallyStaticRef" = true ∧
    strHasSub msRefDroppedMsg "dropped" = true ∧
    StackAndRef.derefRef
        (ManuallyStatic.drop (ManuallyStatic.get_ref (ManuallyStatic.new v))) =
      Except.error StackAndRef.refDroppedMsg ∧
    strHasSub StackAndRef.refDroppedMsg "ManuallyStaticRef" = true ∧
    strHasSub StackAndRef.refDroppedMsg "dropped" = true :=
  ⟨rfl, by decide, by decide, rfl, by decide, by decide⟩

/-- Claim C2: in instrumented builds, `free` atomically swaps the shared
`is_freed` flag to `true` and panics with the double-free message exactly
when the flag was already `true`; in particular calling `free` a second time
for the same block via a clone panics on the second call, and the message
contains "double free". -/
theorem C2_double_free (T : Type) (v : T) (s : ManuallyStaticPtr T) :
    ManuallyStaticPtr.free s =
      (if s.is_freed then Except.error doubleFreeMsg
       else Except.ok { s with is_freed := true, ref_count := s.ref_count - 1 }) ∧
    runPtr (ManuallyStaticPtr.new v) [PtrOp.clone, PtrOp.free, PtrOp.free] =
      Except.error doubleFreeMsg ∧
    strHasSub doubleFreeMsg "double free" = true := by
  refine ⟨?_, rfl, by decide⟩
  cases hf : s.is_freed with
  | true => simp [ManuallyStaticPtr.free, hf]
  | false =>
    cases hc : (s.ref_count == 1) <;>
      simp [ManuallyStaticPtr.free, ManuallyStaticPtr.drop, hf, hc]

/-- Claim C3: in instrumented builds, for every family of handles to one
block (every non-panicking trace of clone/drop/free/deref operations from
`new`): if some `free` occurred in the trace, dereferencing any remaining
handle panics with a message containing "freed"; if no `free` occurred,
dereferencing returns a view of the stored value without panicking. -/
theorem C3_deref_family (T : Type) (v : T) (ops : List PtrOp) (s : ManuallyStaticPtr T)
    (h : runPtr (ManuallyStaticPtr.new v) ops = Except.ok s) :
    (List.any ops isFreeOp = true →
      ManuallyStaticPtr.deref s = Except.error derefFreedMsg ∧
      strHasSub derefFreedMsg "freed" = true) ∧
    (List.any ops isFreeOp = false →
      ManuallyStaticPtr.deref s = Except.ok s.value) := by
  have hf : s.is_freed = List.any ops isFreeOp := by
    have hrec := runPtr_is_freed h
    simpa [ManuallyStaticPtr.new] using hrec
  constructor
  · intro ha
    refine ⟨?_, by decide⟩
    simp [ManuallyStaticPtr.deref, hf, ha]
  · intro ha
    simp [ManuallyStaticPtr.deref, hf, ha]

/-- Witness for C3 at a concrete input: the trace `[clone, free]` from
`new 7` reaches the state `⟨7, true, 1⟩`, and dereferencing the remaining
handle panics with the use-after-free message. -/
theorem C3_deref_family_witness :
    ManuallyStaticPtr.deref (⟨7, true, 1⟩ : ManuallyStaticPtr Nat) =
      Except.error derefFreedMsg ∧
    strHasSub derefFreedMsg "freed" = true :=
  (C3_deref_family Nat 7 [PtrOp.clone, PtrOp.free] ⟨7, true, 1⟩ rfl).1 rfl

/-- Claim C4: in instrumented builds, destroying a handle panics with the
"dropped before freed" message exactly when it is the sole remaining handle
(the decrement that takes the count to zero, i.e. `ref_count` was 1) and
`free` was never called; destroying a non-last handle, or the last handle
after `free`, does not panic.  Concretely: dropping the sole handle from
`new` panics, dropping a fresh clone does not, and `free` on the sole handle
(which ends with that handle's own destructor) does not. -/
theorem C4_drop_handle (T : Type) (v : T) (s : ManuallyStaticPtr T) :
    ManuallyStaticPtr.drop s =
      (if s.ref_count == 1 && !s.is_freed then Except.error lastDropMsg
       else Except.ok { s with ref_count := s.ref_count - 1 }) ∧
    runPtr (ManuallyStaticPtr.new v) [PtrOp.drop] = Except.error lastDropMsg ∧
    runPtr (ManuallyStaticPtr.new v) [PtrOp.clone, PtrOp.drop] =
      Except.ok { value := v, is_freed := false, ref_count := 1 } ∧
    runPtr (ManuallyStaticPtr.new v) [PtrOp.free] =
      Except.ok { value := v, is_freed := true, ref_count := 0 } ∧
    strHasSub lastDropMsg "drop the last" = true ∧
    strHasSub lastDropMsg "before it was freed" = true := by
  refine ⟨?_, rfl, rfl, rfl, by decide, by decide⟩
  cases hc : (s.ref_count == 1) <;> cases hf : s.is_freed <;>
    simp [ManuallyStaticPtr.drop, hc, hf]

/-- Claim C5: for every value `v`, constructing a cell around `v` and
immediately obtaining a reference via `get_ref` yields a reference that
dereferences to `v`; `get_ref` itself is a total operation with no failure
mode (it only hands out the shared state unchanged). -/
theorem C5_new_get_ref (T : Type) (v : T) :
    ManuallyStaticRef.deref (ManuallyStatic.get_ref (ManuallyStatic.new v)) =
      Except.ok v ∧
    ManuallyStatic.get_ref (ManuallyStatic.new v) = ManuallyStatic.new v :=
  ⟨rfl, rfl⟩

/-- Claim C6: for every still-alive cell, a write performed through a
`ManuallyStaticRefMut` obtained via `get_mut` succeeds and stores the new
value, and a `ManuallyStaticRef` subsequently obtained from the same cell
dereferences to the written value. -/
theorem C6_mut_visible (T : Type) (x : T) (w : ManuallyStatic T)
    (h : w.was_dropped = false) :
    ManuallyStaticRefMut.write (ManuallyStatic.get_mut w) x =
      Except.ok { w with value := x } ∧
    ManuallyStaticRef.deref (ManuallyStatic.get_ref { w with value := x }) =
      Except.ok x := by
  constructor
  · simp [ManuallyStaticRefMut.write, ManuallyStatic.get_mut, h]
  · simp [ManuallyStaticRef.deref, ManuallyStatic.get_ref, h]

/-- Witness for C6 at a concrete input: writing 2 through a mutable
reference of a fresh cell holding 1, then reading through a fresh shared
reference, yields 2. -/
theorem C6_mut_visible_witness :
    ManuallyStaticRefMut.write (ManuallyStatic.get_mut (ManuallyStatic.new 1)) 2 =
      Except.ok ({ value := 2, was_dropped := false } : ManuallyStatic Nat) ∧
    ManuallyStaticRef.deref
        (ManuallyStatic.get_ref ({ value := 2, was_dropped := false } : ManuallyStatic Nat)) =
      Except.ok 2 :=
  C6_mut_visible Nat 2 (ManuallyStatic.new 1) rfl

/-- Claim C7: cloning a `ManuallyStaticPtr` copies only the block address and
the shared flags, never the payload: the clone's view of the value and of the
freed flag is the shared one, dereferencing the clone is identical to
dereferencing the original, a mutation of the shared block is observed
through the clone, and the shared outstanding-handle count goes up by one. -/
theorem C7_clone_shares (T : Type) (x : T) (s : ManuallyStaticPtr T) :
    (ManuallyStaticPtr.clone s).value = s.value ∧
    (ManuallyStaticPtr.clone s).is_freed = s.is_freed ∧
    (ManuallyStaticPtr.clone s).ref_count = s.ref_count + 1 ∧
    ManuallyStaticPtr.deref (ManuallyStaticPtr.clone s) = ManuallyStaticPtr.deref s ∧
    (s.is_freed = false →
      ManuallyStaticPtr.deref { ManuallyStaticPtr.clone s with value := x } =
        Except.ok x) := by
  refine ⟨rfl, rfl, rfl, rfl, ?_⟩
  intro hf
  simp [ManuallyStaticPtr.deref, ManuallyStaticPtr.clone, hf]

/-- Witness for C7 at a concrete input: the clone of a fresh handle holding 4
has count 2, and after the shared block is overwritten with 9 the clone
dereferences to 9. -/
theorem C7_clone_shares_witness :
    ManuallyStaticPtr.deref
        { ManuallyStaticPtr.clone (ManuallyStaticPtr.new 4) with value := 9 } =
      Except.ok 9 ∧
    (ManuallyStaticPtr.clone (ManuallyStaticPtr.new 4)).ref_count = 2 :=
  ⟨(C7_clone_shares Nat 9 (ManuallyStaticPtr.new 4)).2.2.2.2 rfl,
   (C7_clone_shares Nat 9 (ManuallyStaticPtr.new 4)).2.2.1⟩

/-- Claim C8: the liveness flag of a cell starts `false` at construction, is
set to `true` at destruction, and along every non-panicking trace of cell
operations the flag ends up `true` exactly when the trace contains the
destruction — so no other operation (`get_ref`, `get_mut`, any dereference,
any write) mutates the shared flag and the flip never reverts. -/
theorem C8_flag_lifecycle (T : Type) (v : T) (ops : List (COp T))
    (w w' : ManuallyStatic T)
    (h : runCell (ManuallyStatic.new v) ops = Except.ok w') :
    (ManuallyStatic.new v).was_dropped = false ∧
    (ManuallyStatic.drop w).was_dropped = true ∧
    w'.was_dropped = List.any ops isDropOp := by
  refine ⟨rfl, rfl, ?_⟩
  have hrec := runCell_was_dropped h
  simpa [ManuallyStatic.new] using hrec

/-- Witness for C8 at a concrete input: the trace `[get_ref, drop]` from a
fresh cell holding 1 reaches the state `⟨1, true⟩`, whose flag equals the
trace's drop indicator. -/
theorem C8_flag_lifecycle_witness :
    (ManuallyStatic.new (1 : Nat)).was_dropped = false ∧
    (ManuallyStatic.drop (ManuallyStatic.new (2 : Nat))).was_dropped = true ∧
    ManuallyStatic.was_dropped (⟨1, true⟩ : ManuallyStatic Nat) =
      List.any ([COp.get_ref, COp.drop] : List (COp Nat)) isDropOp :=
  C8_flag_lifecycle Nat 1 ([COp.get_ref, COp.drop] : List (COp Nat))
    (ManuallyStatic.new 2) ⟨1, true⟩ rfl

/-- Claim C9: in instrumented builds, `free` on a not-yet-freed handle never
panics — in particular not with the "dropped before freed" check that the
consumed handle's own destructor performs, because `free` swaps the freed
flag to `true` before that destructor runs; and the canonical trace that
clones and destroys a handle `n` times and then frees the sole remaining
handle completes without any panic. -/
theorem C9_free_last_ok (T : Type) (v : T) (n : Nat) (s : ManuallyStaticPtr T)
    (h : s.is_freed = false) :
    ManuallyStaticPtr.free s =
      Except.ok { s with is_freed := true, ref_count := s.ref_count - 1 } ∧
    runPtr (ManuallyStaticPtr.new v) (cdFree n) =
      Except.ok { value := v, is_freed := true, ref_count := 0 } := by
  constructor
  · cases hc : (s.ref_count == 1) <;>
      simp [ManuallyStaticPtr.free, ManuallyStaticPtr.drop, h, hc]
  · induction n with
    | zero => rfl
    | succ k ih => exact ih

/-- Witness for C9 at a concrete input: freeing the sole handle of the state
`⟨3, false, 1⟩` succeeds, and the trace `clone; drop; clone; drop; free`
from `new 3` completes with the block freed and no handle outstanding. -/
theorem C9_free_last_ok_witness :
    ManuallyStaticPtr.free (⟨3, false, 1⟩ : ManuallyStaticPtr Nat) =
      Except.ok ({ value := 3, is_freed := true, ref_count := 0 } : ManuallyStaticPtr Nat) ∧
    runPtr (ManuallyStaticPtr.new 3) (cdFree 2) =
      Except.ok ({ value := 3, is_freed := true, ref_count := 0 } : ManuallyStaticPtr Nat) :=
  C9_free_last_ok Nat 3 2 ⟨3, false, 1⟩ rfl

/-- Claim C10: in instrumented builds, after every finite non-panicking
sequence of clone, destruction, free and dereference operations starting
from `new`, the shared `ref_count` equals the ghost number of live handles
computed from the trace (`new` starts at 1, each clone adds 1, each
destruction — including the one `free` performs on the handle it consumes —
subtracts 1, and dereferencing changes nothing). -/
theorem C10_ref_count_live (T : Type) (v : T) (ops : List PtrOp)
    (s : ManuallyStaticPtr T)
    (h : runPtr (ManuallyStaticPtr.new v) ops = Except.ok s) :
    s.ref_count = liveCount 1 ops :=
  runPtr_ref_count h

/-- Witness for C10 at a concrete input: the trace `[clone, drop, free]`
from `new 5` reaches the state `⟨5, true, 0⟩`, whose count equals the ghost
live count of the trace. -/
theorem C10_ref_count_live_witness :
    ManuallyStaticPtr.ref_count (⟨5, true, 0⟩ : ManuallyStaticPtr Nat) =
      liveCount 1 [PtrOp.clone, PtrOp.drop, PtrOp.free] :=
  C10_ref_count_live Nat 5 [PtrOp.clone, PtrOp.drop, PtrOp.free] ⟨5, true, 0⟩ rfl
